import Mathlib

/-!
# Weavely — shallow embedding and verification

This file embeds the core of the Weavely document-assembly library
(`src/weavely`) in Lean 4 and proves properties about it.

The embedding follows the Python source:
* `src/weavely/content.py` — `Content`, ordered name→block mapping;
* `src/weavely/file/file.py` — `SimpleFile`, registries, formatting /
  rendering resolution, the dual-mode stream render pass;
* `src/weavely/blocks/heading.py`, `src/weavely/blocks/txt.py` — concrete
  payload constructors with eager validation;
* `src/weavely/errors.py` — the exception taxonomy.

Python dictionaries are modelled as association lists with CPython
ordered-dict semantics (insertion order preserved; overwriting an existing
key keeps its original position).  Python exceptions are modelled with
`Except` over an explicit error type.  In-memory streams (`StringIO`,
`BytesIO`) are modelled as a buffer plus a read/write position, with
`write` overwriting from the current position (which, for the freshly
created streams the render pass uses, amounts to appending).
-/

namespace Weavely

/-- Model of a CPython `dict` (insertion-ordered) as an association list. -/
abbrev Dict (κ α : Type) : Type := List (κ × α)

/-- `d[k]` lookup / `d.get(k)`: first (and, under the dict invariant, only)
binding of the key. -/
def dget {κ α : Type} [DecidableEq κ] : Dict κ α → κ → Option α
  | [], _ => none
  | (k', v) :: rest, k => if k' = k then some v else dget rest k

/-- `k in d` membership test. -/
def dcontains {κ α : Type} [DecidableEq κ] (d : Dict κ α) (k : κ) : Bool :=
  (dget d k).isSome

/-- `d[k] = v` assignment: CPython overwrites an existing key in place
(keeping its insertion position) and appends a new key at the end. -/
def dset {κ α : Type} [DecidableEq κ] : Dict κ α → κ → α → Dict κ α
  | [], k, v => [(k, v)]
  | (k', v') :: rest, k, v =>
      if k' = k then (k', v) :: rest else (k', v') :: dset rest k v

/-- `del d[k]` on the first binding of the key (the only one under the
dict invariant). -/
def derase {κ α : Type} [DecidableEq κ] : Dict κ α → κ → Dict κ α
  | [], _ => []
  | (k', v') :: rest, k => if k' = k then rest else (k', v') :: derase rest k

/-- `d.pop(k, None)`: removes and returns the value when the key is
present; returns `None` and leaves the dict unchanged when it is absent.
It never raises. -/
def dpop {κ α : Type} [DecidableEq κ] (d : Dict κ α) (k : κ) : Option α × Dict κ α :=
  match dget d k with
  | none => (none, d)
  | some v => (some v, derase d k)

/-- `d.values()`, in insertion order. -/
def dvalues {κ α : Type} (d : Dict κ α) : List α :=
  d.map Prod.snd

/-- `d.keys()`, in insertion order. -/
def dkeys {κ α : Type} (d : Dict κ α) : List κ :=
  d.map Prod.fst

/-! ## Payload data model

The concrete payload types present in the source: `Heading` and
`Paragraph` (from `weavely/blocks/heading.py` and `paragraph.py`) and
`PlainTextData` and `TitleData` (from `weavely/blocks/txt.py`).  The
registries key on the concrete type of a payload (`type(data)`), which the
embedding exposes as `Data.typeOf`. -/

/-- The concrete-type identity of a payload (`type(data)` in the source). -/
inductive DataType : Type
  | heading
  | paragraph
  | plainTextData
  | titleData
  deriving DecidableEq, Repr

/-- A payload value.  Fields mirror the dataclass fields of the concrete
payload classes; `level` is a Python `int`, hence `Int` here. -/
inductive Data : Type
  | heading (text : String) (level : Int)
  | paragraph (text : String)
  | plainTextData (text : String)
  | titleData (title : String) (level : Int)
  deriving DecidableEq, Repr

/-- `type(data)` of a payload. -/
def Data.typeOf : Data → DataType
  | .heading _ _ => .heading
  | .paragraph _ => .paragraph
  | .plainTextData _ => .plainTextData
  | .titleData _ _ => .titleData

/-- `cls.__name__` of a concrete payload class. -/
def DataType.pyName : DataType → String
  | .heading => "Heading"
  | .paragraph => "Paragraph"
  | .plainTextData => "PlainTextData"
  | .titleData => "TitleData"

/-- The arguments part of the dataclass `repr` of a payload (the Python
repr quotes the string fields; the quotes are elided here, which preserves
everything the theorems rely on — in particular that the repr begins with
the concrete class name). -/
def Data.reprArgs : Data → String
  | .heading t l => "(text=" ++ t ++ ", level=" ++ toString l ++ ")"
  | .paragraph t => "(text=" ++ t ++ ")"
  | .plainTextData t => "(text=" ++ t ++ ")"
  | .titleData t l => "(title=" ++ t ++ ", level=" ++ toString l ++ ")"

/-- Dataclass `repr(data)`: class name followed by the field assignments. -/
def Data.reprStr (d : Data) : String :=
  d.typeOf.pyName ++ d.reprArgs

/-! ## Errors (`weavely/errors.py` and Python-level failures) -/

/-- The exceptions the embedded operations can raise.

* `keyError` — the bare `KeyError` raised by `SimpleFile.set_renderer` /
  `set_formatter` on a registration conflict;
* `rendererIsUnknown` — `RendererIsUnknownError` from `SimpleFile._render`,
  carrying the offending payload and the formatted message;
* `dataIsMissing` / `dataIsInvalid` — `DataIsMissingError` /
  `DataIsInvalidError` with their `data_type` / `field` (/ `reason`)
  attributes;
* `pyTypeError` — a `TypeError` raised by the Python runtime itself
  (e.g. when an exception constructor is called with missing required
  keyword-only arguments). -/
inductive WError : Type
  | keyError (msg : String)
  | rendererIsUnknown (data : Data) (msg : String)
  | dataIsMissing (dataType : DataType) (field : String)
  | dataIsInvalid (dataType : DataType) (field : String) (reason : String)
  | pyTypeError (msg : String)
  deriving DecidableEq, Repr

/-! ## Strategies and blocks -/

/-- A formatting strategy (`IBlockFormatter`): payload to payload. -/
abbrev IBlockFormatter : Type := Data → Data

/-- A rendering strategy (`IBlockRenderer`): payload to string. -/
abbrev IBlockRenderer : Type := Data → String

/-- A block (`BaseBlock`): an immutable name, one payload, and optional
instance-level formatter and renderer. -/
structure BaseBlock : Type where
  name : String
  data : Data
  formatter : Option IBlockFormatter
  renderer : Option IBlockRenderer

/-! ## Content (`weavely/content.py`) -/

/-- `Content`: blocks stored in a dict keyed by block name, guaranteeing
insertion order of iteration. -/
structure Content : Type where
  blocks : Dict String BaseBlock

/-- The empty content a fresh `SimpleFile` starts with. -/
def Content.empty : Content := ⟨[]⟩

/-- `Content.__iter__`: the blocks in insertion order. -/
def Content.iter (c : Content) : List BaseBlock :=
  dvalues c.blocks

/-- `Content.__len__`. -/
def Content.size (c : Content) : Nat :=
  c.blocks.length

/-- `Content.add_block`: `self._blocks[block.name] = block; return block.name`. -/
def Content.add_block (c : Content) (b : BaseBlock) : Content × String :=
  (⟨dset c.blocks b.name b⟩, b.name)

/-- Repeated `add_block` over a list of blocks, left to right. -/
def Content.add_blocks (c : Content) (bs : List BaseBlock) : Content :=
  bs.foldl (fun c b => (c.add_block b).1) c

/-! ## In-memory streams

`StringIO` / `BytesIO` keep a buffer and a current position.  `write`
replaces from the current position onward and advances it; `getvalue`
returns the whole buffer regardless of position; `read` (no argument)
returns the buffer from the current position on.  A fresh stream has
position `0`, so sequential writes append and leave the position at the
end of the buffer. -/

/-- `io.StringIO` (position measured in characters). -/
structure StringIO : Type where
  buffer : String
  pos : Nat

/-- `StringIO.write`. -/
def StringIO.write (s : StringIO) (t : String) : StringIO :=
  ⟨⟨s.buffer.data.take s.pos ++ t.data ++ s.buffer.data.drop (s.pos + t.data.length)⟩,
   s.pos + t.data.length⟩

/-- `StringIO.getvalue`. -/
def StringIO.getvalue (s : StringIO) : String :=
  s.buffer

/-- `io.BytesIO` (bytes as naturals below 256). -/
structure BytesIO : Type where
  buffer : List Nat
  pos : Nat
  deriving DecidableEq, Repr

/-- `BytesIO.write`. -/
def BytesIO.write (s : BytesIO) (bs : List Nat) : BytesIO :=
  ⟨s.buffer.take s.pos ++ bs ++ s.buffer.drop (s.pos + bs.length), s.pos + bs.length⟩

/-- `BytesIO.read()` with no size argument: the buffer from the current
position to the end. -/
def BytesIO.read (s : BytesIO) : List Nat :=
  s.buffer.drop s.pos

/-! ## Encodings

The default document encoding is `"utf-8"`; `str.encode` for it is the
standard UTF-8 character encoder, modelled byte for byte. -/

/-- UTF-8 encoding of one character (the algorithm of `String.utf8EncodeChar`,
stated over `Nat`). -/
def utf8EncodeChar (c : Char) : List Nat :=
  let n := c.toNat
  if n < 128 then [n]
  else if n < 2048 then [192 + n / 64, 128 + n % 64]
  else if n < 65536 then [224 + n / 4096, 128 + (n / 64) % 64, 128 + n % 64]
  else [240 + n / 262144, 128 + (n / 4096) % 64, 128 + (n / 64) % 64, 128 + n % 64]

/-- `bytes.decode` restricted to ASCII byte streams: each byte below 128
decodes to the character with that code point.  For ASCII-safe content
this agrees with UTF-8 decoding. -/
def asciiDecode (bs : List Nat) : String :=
  ⟨bs.map Char.ofNat⟩

/-- A string is ASCII-safe when every character's code point is below 128. -/
def asciiSafe (s : String) : Prop :=
  ∀ c ∈ s.data, c.toNat < 128

instance (s : String) : Decidable (asciiSafe s) := by
  unfold asciiSafe; infer_instance

/-! ## SimpleFile (`weavely/file/file.py`) -/

/-- `SimpleFile`: content, the two type-indexed registries
(`FileFormatter` / `FileRenderer`, each a dict keyed by the concrete
payload type), the configured encoding (as the per-character byte encoder
of the configured codec) and the inter-block delimiter. -/
structure SimpleFile : Type where
  content : Content
  formatter : Dict DataType IBlockFormatter
  renderer : Dict DataType IBlockRenderer
  encoding : Char → List Nat
  delimiter : String

/-- The message of the conflict `KeyError` in `SimpleFile.set_renderer`
(the quotes that Python `!r` adds around the class name are elided). -/
def set_renderer_msg (t : DataType) : String :=
  "Renderer for data type " ++ t.pyName ++
    " is already set. Use `replace=True` if you want to replace it intentionally."

/-- The message of the conflict `KeyError` in `SimpleFile.set_formatter`. -/
def set_formatter_msg (t : DataType) : String :=
  "Formatter for data type " ++ t.pyName ++
    " is already set. Use `replace=True` if you want to replace it intentionally."

/-- `SimpleFile.set_renderer`: raises `KeyError` when the type already has
a renderer and `replace` is false; otherwise assigns. -/
def SimpleFile.set_renderer (f : SimpleFile) (data_type : DataType)
    (renderer : IBlockRenderer) (replace : Bool) : Except WError SimpleFile :=
  if dcontains f.renderer data_type && !replace then
    .error (.keyError (set_renderer_msg data_type))
  else
    .ok { f with renderer := dset f.renderer data_type renderer }

/-- `SimpleFile.set_formatter`: same shape as `set_renderer`. -/
def SimpleFile.set_formatter (f : SimpleFile) (data_type : DataType)
    (formatter : IBlockFormatter) (replace : Bool) : Except WError SimpleFile :=
  if dcontains f.formatter data_type && !replace then
    .error (.keyError (set_formatter_msg data_type))
  else
    .ok { f with formatter := dset f.formatter data_type formatter }

/-- `SimpleFile.get_renderer`: `self._renderer.get(data_type, None)`. -/
def SimpleFile.get_renderer (f : SimpleFile) (data_type : DataType) : Option IBlockRenderer :=
  dget f.renderer data_type

/-- `SimpleFile.get_formatter`: `self._formatter.get(data_type, None)`. -/
def SimpleFile.get_formatter (f : SimpleFile) (data_type : DataType) : Option IBlockFormatter :=
  dget f.formatter data_type

/-- `SimpleFile.remove_renderer`: `return self._renderer.pop(data_type, None)`.
Returns the removed renderer (or `None`) and the file with the updated
registry; never raises. -/
def SimpleFile.remove_renderer (f : SimpleFile) (data_type : DataType) :
    Option IBlockRenderer × SimpleFile :=
  let r := dpop f.renderer data_type
  (r.1, { f with renderer := r.2 })

/-- `SimpleFile.remove_formatter`: `return self._formatter.pop(data_type, None)`. -/
def SimpleFile.remove_formatter (f : SimpleFile) (data_type : DataType) :
    Option IBlockFormatter × SimpleFile :=
  let r := dpop f.formatter data_type
  (r.1, { f with formatter := r.2 })

/-- `SimpleFile._format`: instance formatter first, then the registry
formatter for `type(data)`, else the payload unchanged. -/
def SimpleFile.format (f : SimpleFile) (data : Data) (formatter : Option IBlockFormatter) : Data :=
  match formatter with
  | some fm => fm data
  | none =>
      match dget f.formatter data.typeOf with
      | some fm => fm data
      | none => data

/-- The message of `RendererIsUnknownError` in `SimpleFile._render`
(Python `!r` quoting elided; the payload repr embeds its class name). -/
def renderer_unknown_msg (d : Data) : String :=
  "Data " ++ d.reprStr ++
    " cannot be rendered. SimpleFile not block does not have a renderer for specified data type."

/-- `SimpleFile._render`: instance renderer first, then the registry
renderer for `type(data)`, else `RendererIsUnknownError`. -/
def SimpleFile.render (f : SimpleFile) (data : Data) (renderer : Option IBlockRenderer) :
    Except WError String :=
  match renderer with
  | some r => .ok (r data)
  | none =>
      match f.get_renderer data.typeOf with
      | some r => .ok (r data)
      | none => .error (.rendererIsUnknown data (renderer_unknown_msg data))

/-- The body of `SimpleFile._write_to_stream` for a `StringIO` sink:
write the rendered text, then the delimiter when requested. -/
def SimpleFile.write_str (f : SimpleFile) (s : StringIO) (rendered : String)
    (write_delimiter : Bool) : StringIO :=
  let s := s.write rendered
  if write_delimiter then s.write f.delimiter else s

/-- The body of `SimpleFile._write_to_stream` for a `BytesIO` sink:
the same writes, each string encoded with the configured encoding. -/
def SimpleFile.write_bytes (f : SimpleFile) (b : BytesIO) (rendered : String)
    (write_delimiter : Bool) : BytesIO :=
  let b := b.write (rendered.data.flatMap f.encoding)
  if write_delimiter then b.write (f.delimiter.data.flatMap f.encoding) else b

/-- The block loop of `SimpleFile._as_stream`, written once and
parameterized over the sink kind (the source dispatches on the stream type
inside `_write_to_stream`; the traversal itself is shared).  `i` is the
1-based `enumerate` counter; the delimiter is written after each block except
the last (`write_delimiter = i < len(self._content)`). -/
def SimpleFile.render_pass {σ : Type} (f : SimpleFile)
    (write : σ → String → Bool → σ) : List BaseBlock → Nat → σ → Except WError σ
  | [], _, st => .ok st
  | b :: rest, i, st =>
      let d := f.format b.data b.formatter
      match f.render d b.renderer with
      | .error e => .error e
      | .ok rendered =>
          f.render_pass write rest (i + 1) (write st rendered (decide (i < f.content.size)))

/-- `SimpleFile.as_str`: run the render pass into a fresh `StringIO` and
return `getvalue()`. -/
def SimpleFile.as_str (f : SimpleFile) : Except WError String :=
  (f.render_pass f.write_str f.content.iter 1 ⟨"", 0⟩).map StringIO.getvalue

/-- `SimpleFile.as_stream`: run the render pass into a fresh `BytesIO` and
return the stream as is (the source performs no `seek`). -/
def SimpleFile.as_stream (f : SimpleFile) : Except WError BytesIO :=
  f.render_pass f.write_bytes f.content.iter 1 ⟨[], 0⟩

/-- `SimpleFile.to_file` writes `self.as_stream().read()` to the target
file; this is the byte string that ends up in the file. -/
def SimpleFile.to_file_bytes (f : SimpleFile) : Except WError (List Nat) :=
  f.as_stream.map BytesIO.read

/-! ## Concrete block constructors (`weavely/blocks/heading.py`, `txt.py`)

Block names are modelled as explicitly supplied (the source generates a
random name when none is given; name generation is outside the properties
proved here). -/

/-- `Heading.__post_init__`: constructing a `Heading` dataclass validates
eagerly — empty `text` raises `DataIsMissingError(field="text")`, `level`
below 1 raises `DataIsInvalidError(field="level")`. -/
def Heading.init (text : String) (level : Int) : Except WError Data :=
  if text = "" then .error (.dataIsMissing .heading "text")
  else if level < 1 then
    .error (.dataIsInvalid .heading "level" "must be a positive integer")
  else .ok (.heading text level)

/-- `HeadingBlock.by_data`: raises `DataIsMissingError(data_type=Heading,
field="text")` when the `text` key is absent from `**data`; otherwise
constructs `Heading(**data)` (running its post-init validation; `level`
defaults to 1). -/
def HeadingBlock.by_data (name : String) (formatter : Option IBlockFormatter)
    (renderer : Option IBlockRenderer) (text : Option String) (level : Option Int) :
    Except WError BaseBlock :=
  match text with
  | none => .error (.dataIsMissing .heading "text")
  | some t =>
      match Heading.init t (level.getD 1) with
      | .error e => .error e
      | .ok d => .ok ⟨name, d, formatter, renderer⟩

/-- `PlainText.by_data` from `weavely/blocks/txt.py`.  When the `text` key
is missing the source executes `raise DataIsMissingError(msg)` — but
`DataIsMissingError.__init__` declares `data_type` and `field` as required
keyword-only parameters, so that constructor call itself fails and Python
raises `TypeError` instead of the documented `DataIsMissingError`.
(The module is also unimportable as written: it imports `TitleIsEmptyError`
and `TitleLevelIsInvalidError` from `weavely.errors`, which defines
neither.) -/
def PlainText.by_data (name : String) (formatter : Option IBlockFormatter)
    (renderer : Option IBlockRenderer) (text : Option String) : Except WError BaseBlock :=
  match text with
  | none =>
      .error (.pyTypeError
        "DataIsMissingError.__init__ missing required keyword-only arguments: data_type and field")
  | some t => .ok ⟨name, .plainTextData t, formatter, renderer⟩

/-! ## Shared concrete strategies and files used by witnesses -/

/-- A renderer returning the text field of any payload. -/
def textRenderer : IBlockRenderer := fun d =>
  match d with
  | .heading t _ => t
  | .paragraph t => t
  | .plainTextData t => t
  | .titleData t _ => t

/-- A renderer reversing the text field of a plain-text payload. -/
def reverseRenderer : IBlockRenderer := fun d =>
  match d with
  | .plainTextData t => ⟨t.data.reverse⟩
  | _ => ""

/-- A formatter appending an exclamation mark to a plain-text payload. -/
def exclaimFormatter : IBlockFormatter := fun d =>
  match d with
  | .plainTextData t => .plainTextData (t ++ "!")
  | d => d

/-- A `SimpleFile` with empty content and empty registries (the default
construction, utf-8 encoding, newline delimiter). -/
def fileEmpty : SimpleFile :=
  { content := Content.empty
    formatter := []
    renderer := []
    encoding := utf8EncodeChar
    delimiter := "\n" }

/-! ## Dictionary lemmas -/

theorem dget_dset_self {κ α : Type} [DecidableEq κ] (d : Dict κ α) (k : κ) (v : α) :
    dget (dset d k v) k = some v := by
  induction d with
  | nil => simp [dset, dget]
  | cons p rest ih =>
      by_cases h : p.1 = k
      · simp [dset, dget, h]
      · simp [dset, dget, h, ih]

theorem dset_eq_append {κ α : Type} [DecidableEq κ] (d : Dict κ α) (k : κ) (v : α)
    (h : k ∉ dkeys d) : dset d k v = d ++ [(k, v)] := by
  induction d with
  | nil => rfl
  | cons p rest ih =>
      simp only [dkeys, List.map_cons, List.mem_cons] at h
      push_neg at h
      simp only [dset]
      rw [if_neg (fun hq => h.1 hq.symm), ih (by simpa [dkeys] using h.2)]
      rfl

theorem dset_overwrite_mid {κ α : Type} [DecidableEq κ] (l₁ l₂ : Dict κ α) (k : κ)
    (old v : α) (h : k ∉ dkeys l₁) :
    dset (l₁ ++ (k, old) :: l₂) k v = l₁ ++ (k, v) :: l₂ := by
  induction l₁ with
  | nil => simp [dset]
  | cons p rest ih =>
      simp only [dkeys, List.map_cons, List.mem_cons] at h
      push_neg at h
      simp only [List.cons_append, dset, List.append_eq]
      rw [if_neg (fun hq => h.1 hq.symm), ih (by simpa [dkeys] using h.2)]

theorem dget_derase_self {κ α : Type} [DecidableEq κ] (d : Dict κ α) (k : κ)
    (h : (dkeys d).Nodup) : dget (derase d k) k = none := by
  induction d with
  | nil => rfl
  | cons p rest ih =>
      simp only [dkeys, List.map_cons, List.nodup_cons] at h
      by_cases hk : p.1 = k
      · simp only [derase, if_pos hk]
        subst hk
        clear ih
        induction rest with
        | nil => rfl
        | cons q rest' ih' =>
            simp only [List.map_cons, List.mem_cons, List.nodup_cons] at h
            push_neg at h
            simp only [dget]
            rw [if_neg (fun hq => h.1.1 hq.symm)]
            exact ih' ⟨h.1.2, h.2.2⟩
      · simp only [derase, if_neg hk, dget, if_neg hk]
        exact ih h.2

/-! ## Claim theorems -/

/-- C2: formatting is resolved by three-tier precedence — the block's
instance formatter when present; otherwise the registry formatter for the
payload's concrete type when registered; otherwise the payload is passed
through unchanged, and the absence of a formatter is not an error
(`SimpleFile._format` is total). -/
theorem format_three_tier_precedence (f : SimpleFile) (d : Data) :
    (∀ fm : IBlockFormatter, f.format d (some fm) = fm d) ∧
    (∀ fm : IBlockFormatter, f.get_formatter d.typeOf = some fm →
        f.format d none = fm d) ∧
    (f.get_formatter d.typeOf = none → f.format d none = d) := by
  refine ⟨fun fm => rfl, fun fm h => ?_, fun h => ?_⟩
  · have h' : dget f.formatter d.typeOf = some fm := h
    simp [SimpleFile.format, h']
  · have h' : dget f.formatter d.typeOf = none := h
    simp [SimpleFile.format, h']

/-- Witness for C2 at concrete inputs: a file with an exclaim formatter
registered for `PlainTextData`, and the empty file. -/
theorem format_three_tier_precedence_witness :
    SimpleFile.format
        { fileEmpty with formatter := [(DataType.plainTextData, exclaimFormatter)] }
        (Data.plainTextData "hi") (some exclaimFormatter) =
      exclaimFormatter (Data.plainTextData "hi") ∧
    SimpleFile.format
        { fileEmpty with formatter := [(DataType.plainTextData, exclaimFormatter)] }
        (Data.plainTextData "hi") none = exclaimFormatter (Data.plainTextData "hi") ∧
    SimpleFile.format fileEmpty (Data.plainTextData "hi") none = Data.plainTextData "hi" :=
  ⟨(format_three_tier_precedence _ _).1 exclaimFormatter,
   (format_three_tier_precedence _ _).2.1 exclaimFormatter rfl,
   (format_three_tier_precedence _ _).2.2 rfl⟩

/-- C3: `set_renderer` (`set_formatter`) for an already-registered type
without `replace` raises the conflict `KeyError` naming the type and
leaves the prior registration intact (a later `get` still returns it);
with `replace = true` it succeeds and overwrites. -/
theorem set_conflict_requires_replace (f : SimpleFile) (t : DataType)
    (r r' : IBlockRenderer) (fm fm' : IBlockFormatter)
    (hr : f.get_renderer t = some r) (hf : f.get_formatter t = some fm) :
    f.set_renderer t r' false = .error (.keyError (set_renderer_msg t)) ∧
    f.get_renderer t = some r ∧
    (∃ f', f.set_renderer t r' true = .ok f' ∧ f'.get_renderer t = some r') ∧
    f.set_formatter t fm' false = .error (.keyError (set_formatter_msg t)) ∧
    f.get_formatter t = some fm ∧
    (∃ f', f.set_formatter t fm' true = .ok f' ∧ f'.get_formatter t = some fm') := by
  have hr' : dget f.renderer t = some r := hr
  have hf' : dget f.formatter t = some fm := hf
  have hsr : f.set_renderer t r' true = .ok { f with renderer := dset f.renderer t r' } := by
    simp [SimpleFile.set_renderer]
  have hsf : f.set_formatter t fm' true = .ok { f with formatter := dset f.formatter t fm' } := by
    simp [SimpleFile.set_formatter]
  refine ⟨?_, hr, ⟨_, hsr, ?_⟩, ?_, hf, ⟨_, hsf, ?_⟩⟩
  · simp [SimpleFile.set_renderer, dcontains, hr']
  · exact dget_dset_self f.renderer t r'
  · simp [SimpleFile.set_formatter, dcontains, hf']
  · exact dget_dset_self f.formatter t fm'

/-- Witness for C3: a file with `textRenderer` registered for
`PlainTextData` and `exclaimFormatter` registered for it as well. -/
theorem set_conflict_requires_replace_witness :
    SimpleFile.set_renderer
        { fileEmpty with
            renderer := [(DataType.plainTextData, textRenderer)]
            formatter := [(DataType.plainTextData, exclaimFormatter)] }
        DataType.plainTextData reverseRenderer false =
      .error (.keyError (set_renderer_msg DataType.plainTextData)) ∧
    (∃ f', SimpleFile.set_renderer
        { fileEmpty with
            renderer := [(DataType.plainTextData, textRenderer)]
            formatter := [(DataType.plainTextData, exclaimFormatter)] }
        DataType.plainTextData reverseRenderer true = .ok f' ∧
        f'.get_renderer DataType.plainTextData = some reverseRenderer) := by
  have h := set_conflict_requires_replace
    { fileEmpty with
        renderer := [(DataType.plainTextData, textRenderer)]
        formatter := [(DataType.plainTextData, exclaimFormatter)] }
    DataType.plainTextData textRenderer reverseRenderer exclaimFormatter exclaimFormatter
    rfl rfl
  exact ⟨h.1, h.2.2.1⟩

/-- C4 counterexample: removing an unregistered renderer (formatter) does
not fail — `remove_renderer` / `remove_formatter` delegate to
`dict.pop(type, None)`, which returns `None` and leaves everything
unchanged.  The claim's "fails with a not-registered condition" is false
on the code. -/
theorem remove_unregistered_returns_none :
    SimpleFile.remove_renderer fileEmpty DataType.heading = (none, fileEmpty) ∧
    SimpleFile.remove_formatter fileEmpty DataType.heading = (none, fileEmpty) :=
  ⟨rfl, rfl⟩

/-- C4 (amended): `remove_renderer` (`remove_formatter`) never raises —
for an unregistered type it returns `None` and leaves the file unchanged;
for a registered type it deletes the entry (a later `get` finds nothing)
and returns the previously registered strategy. -/
theorem remove_returns_prior (f : SimpleFile) (t : DataType)
    (hnr : (dkeys f.renderer).Nodup) (hnf : (dkeys f.formatter).Nodup) :
    (f.get_renderer t = none → f.remove_renderer t = (none, f)) ∧
    (∀ r, f.get_renderer t = some r →
        (f.remove_renderer t).1 = some r ∧
        ((f.remove_renderer t).2).get_renderer t = none) ∧
    (f.get_formatter t = none → f.remove_formatter t = (none, f)) ∧
    (∀ fm, f.get_formatter t = some fm →
        (f.remove_formatter t).1 = some fm ∧
        ((f.remove_formatter t).2).get_formatter t = none) := by
  refine ⟨fun h => ?_, fun r h => ?_, fun h => ?_, fun fm h => ?_⟩
  · have h' : dget f.renderer t = none := h
    simp [SimpleFile.remove_renderer, dpop, h']
  · have h' : dget f.renderer t = some r := h
    refine ⟨by simp [SimpleFile.remove_renderer, dpop, h'], ?_⟩
    have : ((f.remove_renderer t).2).renderer = derase f.renderer t := by
      simp [SimpleFile.remove_renderer, dpop, h']
    show dget ((f.remove_renderer t).2).renderer t = none
    rw [this]
    exact dget_derase_self f.renderer t hnr
  · have h' : dget f.formatter t = none := h
    simp [SimpleFile.remove_formatter, dpop, h']
  · have h' : dget f.formatter t = some fm := h
    refine ⟨by simp [SimpleFile.remove_formatter, dpop, h'], ?_⟩
    have : ((f.remove_formatter t).2).formatter = derase f.formatter t := by
      simp [SimpleFile.remove_formatter, dpop, h']
    show dget ((f.remove_formatter t).2).formatter t = none
    rw [this]
    exact dget_derase_self f.formatter t hnf

/-- Witness for C4 (amended), at a file with one registered renderer and
one registered formatter. -/
theorem remove_returns_prior_witness :
    (SimpleFile.remove_renderer
        { fileEmpty with
            renderer := [(DataType.plainTextData, textRenderer)]
            formatter := [(DataType.plainTextData, exclaimFormatter)] }
        DataType.plainTextData).1 = some textRenderer ∧
    ((SimpleFile.remove_renderer
        { fileEmpty with
            renderer := [(DataType.plainTextData, textRenderer)]
            formatter := [(DataType.plainTextData, exclaimFormatter)] }
        DataType.plainTextData).2).get_renderer DataType.plainTextData = none := by
  have h := remove_returns_prior
    { fileEmpty with
        renderer := [(DataType.plainTextData, textRenderer)]
        formatter := [(DataType.plainTextData, exclaimFormatter)] }
    DataType.plainTextData (by simp [dkeys]) (by simp [dkeys])
  exact h.2.1 textRenderer rfl

theorem dvalues_append {κ α : Type} (d₁ d₂ : Dict κ α) :
    dvalues (d₁ ++ d₂) = dvalues d₁ ++ dvalues d₂ :=
  List.map_append _ _ _

theorem dkeys_append {κ α : Type} (d₁ d₂ : Dict κ α) :
    dkeys (d₁ ++ d₂) = dkeys d₁ ++ dkeys d₂ :=
  List.map_append _ _ _

/-- Auxiliary to C9: adding blocks with fresh, pairwise-distinct names
appends them, in order, to the existing iteration sequence. -/
theorem add_blocks_iter (bs : List BaseBlock) (c : Content)
    (hdisj : ∀ b ∈ bs, b.name ∉ dkeys c.blocks)
    (h : (bs.map BaseBlock.name).Nodup) :
    (c.add_blocks bs).iter = c.iter ++ bs := by
  induction bs generalizing c with
  | nil => simp [Content.add_blocks, Content.iter]
  | cons b rest ih =>
      simp only [List.map_cons, List.nodup_cons] at h
      have hb : b.name ∉ dkeys c.blocks := hdisj b (List.mem_cons_self b rest)
      have hset : (c.add_block b).1.blocks = c.blocks ++ [(b.name, b)] := by
        simp [Content.add_block, dset_eq_append c.blocks b.name b hb]
      have hdisj' : ∀ b' ∈ rest, b'.name ∉ dkeys (c.add_block b).1.blocks := by
        intro b' hb'
        rw [hset, dkeys_append]
        simp only [List.mem_append, dkeys, List.map_cons, List.map_nil,
          List.mem_singleton, not_or]
        exact ⟨hdisj b' (List.mem_cons_of_mem b hb'),
          fun hn => h.1 (hn ▸ List.mem_map_of_mem BaseBlock.name hb')⟩
      have : c.add_blocks (b :: rest) = (c.add_block b).1.add_blocks rest := rfl
      rw [this, ih (c.add_block b).1 hdisj' h.2]
      show dvalues (c.add_block b).1.blocks ++ rest = dvalues c.blocks ++ b :: rest
      rw [hset, dvalues_append]
      simp [dvalues]

/-- C9: starting from empty content, a sequence of `add_block` calls with
pairwise-distinct block names yields exactly those blocks, in insertion
order, when iterating; iteration is a finite list, and re-iterating
without intervening mutation yields the same sequence. -/
theorem add_blocks_insertion_order (bs : List BaseBlock)
    (h : (bs.map BaseBlock.name).Nodup) :
    (Content.empty.add_blocks bs).iter = bs ∧
    (Content.empty.add_blocks bs).iter.length = bs.length ∧
    (Content.empty.add_blocks bs).iter = (Content.empty.add_blocks bs).iter := by
  have hmain : (Content.empty.add_blocks bs).iter = bs := by
    have := add_blocks_iter bs Content.empty (by simp [Content.empty, dkeys]) h
    simpa [Content.empty, Content.iter, dvalues] using this
  exact ⟨hmain, by rw [hmain], rfl⟩

/-- Witness for C9 at two concretely named blocks. -/
theorem add_blocks_insertion_order_witness :
    (Content.empty.add_blocks
        [⟨"a", Data.plainTextData "x", none, none⟩,
         ⟨"b", Data.plainTextData "y", none, none⟩]).iter =
      [⟨"a", Data.plainTextData "x", none, none⟩,
       ⟨"b", Data.plainTextData "y", none, none⟩] :=
  (add_blocks_insertion_order
    [⟨"a", Data.plainTextData "x", none, none⟩,
     ⟨"b", Data.plainTextData "y", none, none⟩] (by simp)).1

/-- C10: adding a block under an already-present name leaves the block
count unchanged and overwrites in place — iteration yields the new block
at the position the name originally occupied, with every other block
unchanged (CPython dict overwrite preserves insertion position). -/
theorem add_block_overwrites_in_place (l₁ l₂ : List (String × BaseBlock))
    (old b : BaseBlock) (h : b.name ∉ dkeys l₁) :
    ((⟨l₁ ++ (b.name, old) :: l₂⟩ : Content).add_block b).1 =
      ⟨l₁ ++ (b.name, b) :: l₂⟩ ∧
    ((⟨l₁ ++ (b.name, old) :: l₂⟩ : Content).add_block b).1.size =
      (⟨l₁ ++ (b.name, old) :: l₂⟩ : Content).size ∧
    ((⟨l₁ ++ (b.name, old) :: l₂⟩ : Content).add_block b).1.iter =
      dvalues l₁ ++ b :: dvalues l₂ := by
  have hset : ((⟨l₁ ++ (b.name, old) :: l₂⟩ : Content).add_block b).1 =
      ⟨l₁ ++ (b.name, b) :: l₂⟩ := by
    simp [Content.add_block, dset_overwrite_mid l₁ l₂ b.name old b h]
  refine ⟨hset, ?_, ?_⟩
  · rw [hset]; simp [Content.size]
  · rw [hset]; simp [Content.iter, dvalues]

/-- Witness for C10: overwriting the first of two blocks keeps it first. -/
theorem add_block_overwrites_in_place_witness :
    ((⟨[("a", ⟨"a", Data.plainTextData "x", none, none⟩),
        ("b", ⟨"b", Data.plainTextData "y", none, none⟩)]⟩ : Content).add_block
      ⟨"a", Data.plainTextData "z", none, none⟩).1.iter =
      [⟨"a", Data.plainTextData "z", none, none⟩,
       ⟨"b", Data.plainTextData "y", none, none⟩] := by
  have h := add_block_overwrites_in_place []
    [("b", ⟨"b", Data.plainTextData "y", none, none⟩)]
    ⟨"a", Data.plainTextData "x", none, none⟩
    ⟨"a", Data.plainTextData "z", none, none⟩ (by simp [dkeys])
  simpa [dvalues] using h.2.2

/-- C8: a block's instance-level renderer is what a render pass applies —
`SimpleFile._render` returns its output without consulting the registry —
and concretely, a single block "abc" with an instance renderer that
reverses the string renders to "cba" under `as_str` for every renderer
registry whatsoever. -/
theorem instance_renderer_wins (rreg : Dict DataType IBlockRenderer) :
    (∀ (f : SimpleFile) (d : Data) (r : IBlockRenderer),
        f.render d (some r) = .ok (r d)) ∧
    SimpleFile.as_str
        { content := ⟨[("b", ⟨"b", Data.plainTextData "abc", none, some reverseRenderer⟩)]⟩
          formatter := []
          renderer := rreg
          encoding := utf8EncodeChar
          delimiter := "\n" } = .ok "cba" := by
  constructor
  · intro f d r; rfl
  · rfl

/-- A block is renderable in a file when it carries an instance renderer
or the registry has an entry for the concrete type of its (formatted)
payload — exactly the condition under which `SimpleFile._render` does not
raise. -/
def renderable (f : SimpleFile) (b : BaseBlock) : Bool :=
  b.renderer.isSome || (f.get_renderer (f.format b.data b.formatter).typeOf).isSome

theorem render_ok_of_renderable (f : SimpleFile) (b : BaseBlock)
    (h : renderable f b = true) :
    ∃ s, f.render (f.format b.data b.formatter) b.renderer = .ok s := by
  unfold renderable at h
  rcases hb : b.renderer with _ | r
  · rw [hb] at h
    simp only [Option.isSome_none, Bool.false_or, Option.isSome_iff_exists] at h
    obtain ⟨r, hr⟩ := h
    refine ⟨r (f.format b.data b.formatter), ?_⟩
    simp [SimpleFile.render, hr]
  · exact ⟨r (f.format b.data b.formatter), rfl⟩

theorem render_error_of_not_renderable (f : SimpleFile) (b : BaseBlock)
    (h : ¬ renderable f b = true) :
    f.render (f.format b.data b.formatter) b.renderer =
      .error (.rendererIsUnknown (f.format b.data b.formatter)
        (renderer_unknown_msg (f.format b.data b.formatter))) := by
  unfold renderable at h
  simp only [Bool.or_eq_true, Option.isSome_iff_exists, not_or, not_exists] at h
  rcases hb : b.renderer with _ | r
  · rcases hg : f.get_renderer (f.format b.data b.formatter).typeOf with _ | r
    · simp [SimpleFile.render, hg]
    · exact absurd hg (h.2 r)
  · exact absurd hb (h.1 r)

/-- Auxiliary to C1: the render pass, on any sink, aborts with the
`RendererIsUnknownError` of the first unrenderable block, whatever was
already written. -/
theorem render_pass_error {σ : Type} (f : SimpleFile) (write : σ → String → Bool → σ)
    (pre : List BaseBlock) (bad : BaseBlock) (post : List BaseBlock)
    (hpre : ∀ b ∈ pre, renderable f b = true) (hbad : ¬ renderable f bad = true)
    (i : Nat) (st : σ) :
    f.render_pass write (pre ++ bad :: post) i st =
      .error (.rendererIsUnknown (f.format bad.data bad.formatter)
        (renderer_unknown_msg (f.format bad.data bad.formatter))) := by
  induction pre generalizing i st with
  | nil =>
      simp only [List.nil_append, SimpleFile.render_pass]
      rw [render_error_of_not_renderable f bad hbad]
  | cons b rest ih =>
      obtain ⟨s, hs⟩ := render_ok_of_renderable f b (hpre b (List.mem_cons_self b rest))
      simp only [List.cons_append, SimpleFile.render_pass]
      rw [hs]
      exact ih (fun b' hb' => hpre b' (List.mem_cons_of_mem b hb')) _ _

/-- C1: in either render pass (`as_str` or `as_stream`), when the blocks
before some block all resolve a renderer and that block has neither an
instance renderer nor a registry entry for its (formatted) payload's
concrete type, the whole operation fails with `RendererIsUnknownError`
carrying that payload — whose message begins with the offending type's
class name — rather than skipping the block. -/
theorem render_fails_on_unknown_renderer (f : SimpleFile)
    (pre post : List BaseBlock) (bad : BaseBlock)
    (hiter : f.content.iter = pre ++ bad :: post)
    (hpre : ∀ b ∈ pre, renderable f b = true)
    (hbad : ¬ renderable f bad = true) :
    f.as_str = .error (.rendererIsUnknown (f.format bad.data bad.formatter)
        (renderer_unknown_msg (f.format bad.data bad.formatter))) ∧
    f.as_stream = .error (.rendererIsUnknown (f.format bad.data bad.formatter)
        (renderer_unknown_msg (f.format bad.data bad.formatter))) ∧
    (∃ rest, renderer_unknown_msg (f.format bad.data bad.formatter) =
        "Data " ++ (f.format bad.data bad.formatter).typeOf.pyName ++ rest) := by
  refine ⟨?_, ?_, ?_⟩
  · unfold SimpleFile.as_str
    rw [hiter, render_pass_error f f.write_str pre bad post hpre hbad]
    rfl
  · unfold SimpleFile.as_stream
    rw [hiter, render_pass_error f f.write_bytes pre bad post hpre hbad]
  · refine ⟨(f.format bad.data bad.formatter).reprArgs ++
      " cannot be rendered. SimpleFile not block does not have a renderer for specified data type.", ?_⟩
    simp [renderer_unknown_msg, Data.reprStr, String.append_assoc]

/-- Witness for C1: a two-block file — a renderable plain-text block
followed by a heading block with no renderer anywhere. -/
theorem render_fails_on_unknown_renderer_witness :
    SimpleFile.as_str
        { fileEmpty with
            content := ⟨[("b1", ⟨"b1", Data.plainTextData "hi", none, some textRenderer⟩),
                         ("b2", ⟨"b2", Data.heading "H" 1, none, none⟩)]⟩ } =
      .error (.rendererIsUnknown (Data.heading "H" 1)
        (renderer_unknown_msg (Data.heading "H" 1))) := by
  have h := render_fails_on_unknown_renderer
    { fileEmpty with
        content := ⟨[("b1", ⟨"b1", Data.plainTextData "hi", none, some textRenderer⟩),
                     ("b2", ⟨"b2", Data.heading "H" 1, none, none⟩)]⟩ }
    [⟨"b1", Data.plainTextData "hi", none, some textRenderer⟩]
    [] ⟨"b2", Data.heading "H" 1, none, none⟩ rfl
    (by decide) (by decide)
  exact h.1

/-- C6 evaluation at the failing input: a file with one block rendering
"hi".  `as_stream` returns the `BytesIO` with its position at the end of
the buffer (not at the start), so `read()` from the returned position
yields nothing and `to_file` writes zero bytes. -/
theorem as_stream_not_rewound :
    SimpleFile.as_stream
        { fileEmpty with
            content := ⟨[("b1", ⟨"b1", Data.plainTextData "hi", none, some textRenderer⟩)]⟩ } =
      .ok ⟨[104, 105], 2⟩ ∧
    (⟨[104, 105], 2⟩ : BytesIO).read = [] ∧
    SimpleFile.to_file_bytes
        { fileEmpty with
            content := ⟨[("b1", ⟨"b1", Data.plainTextData "hi", none, some textRenderer⟩)]⟩ } =
      .ok [] :=
  ⟨rfl, rfl, rfl⟩

/-- C7: `Heading` construction validates eagerly with the documented
errors — `DataIsMissingError(field="text")` when `text` is absent or
empty, `DataIsInvalidError(field="level")` when the level is below 1 —
but `PlainText.by_data` with the `text` key missing raises a `TypeError`
(its `raise DataIsMissingError(msg)` omits the required keyword-only
`data_type` and `field` arguments of `DataIsMissingError.__init__`)
instead of the documented `DataIsMissingError`. -/
theorem construction_error_kinds :
    HeadingBlock.by_data "h" none none none none =
      .error (.dataIsMissing .heading "text") ∧
    Heading.init "" 1 = .error (.dataIsMissing .heading "text") ∧
    Heading.init "Intro" 0 =
      .error (.dataIsInvalid .heading "level" "must be a positive integer") ∧
    PlainText.by_data "p" none none none =
      .error (.pyTypeError
        "DataIsMissingError.__init__ missing required keyword-only arguments: data_type and field") :=
  ⟨rfl, rfl, rfl, rfl⟩

/-! ## The text/byte round trip (C5) -/

theorem utf8EncodeChar_ascii (c : Char) (h : c.toNat < 128) :
    utf8EncodeChar c = [c.toNat] := by
  simp [utf8EncodeChar, h]

theorem flatMap_enc_ascii (enc : Char → List Nat)
    (henc : ∀ c : Char, c.toNat < 128 → enc c = [c.toNat])
    (l : List Char) (h : ∀ c ∈ l, c.toNat < 128) :
    l.flatMap enc = l.map Char.toNat := by
  induction l with
  | nil => rfl
  | cons c rest ih =>
      rw [List.flatMap_cons, henc c (h c (List.mem_cons_self c rest)),
        ih (fun c' hc' => h c' (List.mem_cons_of_mem c hc')), List.map_cons,
        List.singleton_append]

/-- Writing to a stream whose position sits at the end of the buffer
appends. -/
theorem write_fresh_str (s : StringIO) (t : String)
    (h : s.pos = s.buffer.data.length) :
    s.write t = ⟨⟨s.buffer.data ++ t.data⟩, s.pos + t.data.length⟩ := by
  unfold StringIO.write
  rw [h, List.take_length, List.drop_eq_nil_of_le (Nat.le_add_right _ _),
    List.append_nil]

theorem write_fresh_bytes (s : BytesIO) (bs : List Nat)
    (h : s.pos = s.buffer.length) :
    s.write bs = ⟨s.buffer ++ bs, s.pos + bs.length⟩ := by
  unfold BytesIO.write
  rw [h, List.take_length, List.drop_eq_nil_of_le (Nat.le_add_right _ _),
    List.append_nil]

/-- One string write and the corresponding encoded byte write preserve the
lockstep invariant between a text sink and a byte sink. -/
theorem write_pair_step (enc : Char → List Nat)
    (henc : ∀ c : Char, c.toNat < 128 → enc c = [c.toNat])
    (sio : StringIO) (bio : BytesIO) (t : String)
    (hsp : sio.pos = sio.buffer.data.length)
    (hbp : bio.pos = bio.buffer.length)
    (hrel : bio.buffer = sio.buffer.data.map Char.toNat)
    (ht : asciiSafe t) :
    (sio.write t).pos = (sio.write t).buffer.data.length ∧
    (bio.write (t.data.flatMap enc)).pos = (bio.write (t.data.flatMap enc)).buffer.length ∧
    (bio.write (t.data.flatMap enc)).buffer = (sio.write t).buffer.data.map Char.toNat := by
  rw [write_fresh_str sio t hsp, write_fresh_bytes bio _ hbp]
  refine ⟨?_, ?_, ?_⟩
  · show sio.pos + t.data.length = (sio.buffer.data ++ t.data).length
    rw [List.length_append, hsp]
  · show bio.pos + (t.data.flatMap enc).length = (bio.buffer ++ t.data.flatMap enc).length
    rw [List.length_append, hbp]
  · show bio.buffer ++ t.data.flatMap enc = (sio.buffer.data ++ t.data).map Char.toNat
    rw [hrel, flatMap_enc_ascii enc henc t.data ht, List.map_append]

/-- `_write_to_stream` on a text sink and on a byte sink (with an
ASCII-transparent encoding) keep their buffers related by character-code
mapping. -/
theorem write_lockstep (f : SimpleFile)
    (henc : ∀ c : Char, c.toNat < 128 → f.encoding c = [c.toNat])
    (hdelim : asciiSafe f.delimiter)
    (sio : StringIO) (bio : BytesIO) (rendered : String) (wd : Bool)
    (hsp : sio.pos = sio.buffer.data.length)
    (hbp : bio.pos = bio.buffer.length)
    (hrel : bio.buffer = sio.buffer.data.map Char.toNat)
    (hren : asciiSafe rendered) :
    (f.write_str sio rendered wd).pos = (f.write_str sio rendered wd).buffer.data.length ∧
    (f.write_bytes bio rendered wd).pos = (f.write_bytes bio rendered wd).buffer.length ∧
    (f.write_bytes bio rendered wd).buffer =
      (f.write_str sio rendered wd).buffer.data.map Char.toNat := by
  have h₁ := write_pair_step f.encoding henc sio bio rendered hsp hbp hrel hren
  cases wd with
  | false =>
      simp only [SimpleFile.write_str, SimpleFile.write_bytes, if_neg Bool.false_ne_true]
      exact h₁
  | true =>
      have h₂ := write_pair_step f.encoding henc (sio.write rendered)
        (bio.write (rendered.data.flatMap f.encoding)) f.delimiter
        h₁.1 h₁.2.1 h₁.2.2 hdelim
      simp only [SimpleFile.write_str, SimpleFile.write_bytes, if_pos rfl]
      exact h₂

theorem render_pass_cons_ok {σ : Type} (f : SimpleFile) (write : σ → String → Bool → σ)
    (b : BaseBlock) (rest : List BaseBlock) (i : Nat) (st : σ) (rendered : String)
    (hr : f.render (f.format b.data b.formatter) b.renderer = .ok rendered) :
    f.render_pass write (b :: rest) i st =
      f.render_pass write rest (i + 1) (write st rendered (decide (i < f.content.size))) := by
  simp only [SimpleFile.render_pass]
  rw [hr]

/-- Auxiliary to C5: whenever the string-sink render pass succeeds, the
byte-sink render pass over the same blocks succeeds with the
character-by-character encoding of the same content. -/
theorem render_pass_lockstep (f : SimpleFile)
    (henc : ∀ c : Char, c.toNat < 128 → f.encoding c = [c.toNat])
    (hdelim : asciiSafe f.delimiter) (blocks : List BaseBlock)
    (hblocks : ∀ b ∈ blocks, ∀ r,
        f.render (f.format b.data b.formatter) b.renderer = .ok r → asciiSafe r)
    (i : Nat) (sio : StringIO) (bio : BytesIO)
    (hsp : sio.pos = sio.buffer.data.length)
    (hbp : bio.pos = bio.buffer.length)
    (hrel : bio.buffer = sio.buffer.data.map Char.toNat)
    (s' : StringIO) (hs : f.render_pass f.write_str blocks i sio = .ok s') :
    ∃ b', f.render_pass f.write_bytes blocks i bio = .ok b' ∧
      b'.buffer = s'.buffer.data.map Char.toNat := by
  induction blocks generalizing i sio bio with
  | nil =>
      simp only [SimpleFile.render_pass] at hs
      cases hs
      exact ⟨bio, rfl, hrel⟩
  | cons b rest ih =>
      rcases hr : f.render (f.format b.data b.formatter) b.renderer with e | rendered
      · rw [SimpleFile.render_pass, hr] at hs
        cases hs
      · have hren : asciiSafe rendered :=
          hblocks b (List.mem_cons_self b rest) rendered hr
        rw [render_pass_cons_ok f f.write_str b rest i sio rendered hr] at hs
        rw [render_pass_cons_ok f f.write_bytes b rest i bio rendered hr]
        have hw := write_lockstep f henc hdelim sio bio rendered
          (decide (i < f.content.size)) hsp hbp hrel hren
        exact ih (fun b' hb' => hblocks b' (List.mem_cons_of_mem b hb'))
          (i + 1) _ _ hw.1 hw.2.1 hw.2.2 hs

/-- C5: for a document whose blocks all render to ASCII-safe strings,
whose delimiter is ASCII-safe, and whose configured encoding encodes each
ASCII character as its single code-point byte (as utf-8, the default,
does), the string returned by `as_str` equals the byte content produced by
`as_stream` decoded with that encoding. -/
theorem as_str_as_stream_agree (f : SimpleFile)
    (henc : ∀ c : Char, c.toNat < 128 → f.encoding c = [c.toNat])
    (hdelim : asciiSafe f.delimiter)
    (hblocks : ∀ b ∈ f.content.iter, ∀ r,
        f.render (f.format b.data b.formatter) b.renderer = .ok r → asciiSafe r)
    (s : String) (hs : f.as_str = .ok s) :
    ∃ bio : BytesIO, f.as_stream = .ok bio ∧ asciiDecode bio.buffer = s := by
  unfold SimpleFile.as_str at hs
  rcases hp : f.render_pass f.write_str f.content.iter 1 ⟨"", 0⟩ with e | sio
  · rw [hp] at hs
    simp [Except.map] at hs
  · rw [hp] at hs
    have hsget : sio.getvalue = s := Except.ok.inj hs
    obtain ⟨bio, hb, hbuf⟩ := render_pass_lockstep f henc hdelim f.content.iter
      hblocks 1 ⟨"", 0⟩ ⟨[], 0⟩ rfl rfl rfl sio hp
    refine ⟨bio, hb, ?_⟩
    have hmap : (sio.buffer.data.map Char.toNat).map Char.ofNat = sio.buffer.data := by
      rw [List.map_map]
      calc sio.buffer.data.map (Char.ofNat ∘ Char.toNat)
          = sio.buffer.data.map id :=
            List.map_congr_left (fun c _ => Char.ofNat_toNat c)
        _ = sio.buffer.data := List.map_id _
    show String.mk (bio.buffer.map Char.ofNat) = s
    rw [hbuf, hmap, ← hsget]
    rfl

/-- Witness for C5: a two-block document rendering to "hi" and "yo" with
the default utf-8 encoding and newline delimiter. -/
theorem as_str_as_stream_agree_witness :
    ∃ bio : BytesIO,
      SimpleFile.as_stream
          { fileEmpty with
              content := ⟨[("b1", ⟨"b1", Data.plainTextData "hi", none, some textRenderer⟩),
                           ("b2", ⟨"b2", Data.plainTextData "yo", none, some textRenderer⟩)]⟩ } =
        .ok bio ∧
      asciiDecode bio.buffer = "hi\nyo" := by
  apply as_str_as_stream_agree
    { fileEmpty with
        content := ⟨[("b1", ⟨"b1", Data.plainTextData "hi", none, some textRenderer⟩),
                     ("b2", ⟨"b2", Data.plainTextData "yo", none, some textRenderer⟩)]⟩ }
    utf8EncodeChar_ascii (by decide)
  · intro b hb r hr
    simp only [Content.iter, dvalues, List.map_cons, List.map_nil, List.mem_cons,
      List.not_mem_nil, or_false] at hb
    rcases hb with hb | hb
    · subst hb
      have h2 : "hi" = r := Except.ok.inj hr
      rw [← h2]
      decide
    · subst hb
      have h2 : "yo" = r := Except.ok.inj hr
      rw [← h2]
      decide
  · rfl

end Weavely
